import Mathlib

/-!
Shallow embedding of the continuous production-quality monitor of
PTZOpticsVRP (the `ProductionMonitorWidget` of `src/js/moondream-demo.js`,
duplicated verbatim in `src/unnamed/part_000`).

Machine numbers of the JavaScript source are modelled as rationals
(coordinates, luminance, variance) and integers (millisecond timestamps).
Strings are modelled as Lean strings.  External collaborators (frame
source, MediaPipe, OpenCV, the remote MoonDream API) are modelled as an
environment record supplying their outputs; the widget itself is a record
of the fields the source mutates, and each source method becomes a state
transformer on that record.
-/

/-- A facial landmark point, `{x, y, z}` with `z` optional
(`moondream-demo.js`, MediaPipe landmark shape). -/
structure LMPoint where
  x : ℚ
  y : ℚ
  z : Option ℚ
deriving DecidableEq, Repr

/-- A landmark frame: an array whose entries may be absent (a JS array can
hold holes/undefined entries, which the source tests for truthiness). -/
abbrev Frame : Type := List (Option LMPoint)

/-- `frame[i]` with JS semantics: out-of-range reads give `undefined`,
modelled as `none`. -/
def lmAt (f : Frame) (i : ℕ) : Option LMPoint :=
  f.getD i none

/-- Lines 3446-3449: `this._landmarkHistory.push(newLandmarks)` followed by
a single `if (length > 5) shift()` (drop the oldest, i.e. the head). -/
def pushHistory (hist : List Frame) (nf : Frame) : List Frame :=
  let h := hist ++ [nf]
  if h.length > 5 then h.tail else h

/-- The contribution of a point to `sumZ` in lines 3459-3461: the source
adds `frame[i].z` only when it is truthy, so an absent `z` and a zero `z`
both contribute `0`, which is exactly `Option.getD 0`. -/
def zContrib (p : LMPoint) : ℚ :=
  p.z.getD 0

/-- Lines 3455-3463: the accumulation loop of `smoothLandmarks` for one
landmark index, folding `(sumX, sumY, sumZ, count)` over the history. -/
def smoothAcc (h : List Frame) (i : ℕ) : ℚ × ℚ × ℚ × ℕ :=
  h.foldl
    (fun a f =>
      match lmAt f i with
      | some p => (a.1 + p.x, a.2.1 + p.y, a.2.2.1 + zContrib p, a.2.2.2 + 1)
      | none => a)
    (0, 0, 0, 0)

/-- Lines 3454-3470: the smoothed point at index `i`, computed over history
`h`; when no frame of the history defines the index, the source pushes the
raw `newLandmarks[i]`. -/
def smoothedAt (h : List Frame) (nf : Frame) (i : ℕ) : Option LMPoint :=
  let a := smoothAcc h i
  if a.2.2.2 > 0 then
    some { x := a.1 / a.2.2.2, y := a.2.1 / a.2.2.2, z := some (a.2.2.1 / a.2.2.2) }
  else lmAt nf i

/-- Lines 3445-3473, `ProductionMonitorWidget.prototype.smoothLandmarks`:
returns the updated history together with the smoothed frame (the source
mutates `this._landmarkHistory` and returns the smoothed array). -/
def smoothLandmarks (hist : List Frame) (nf : Frame) : List Frame × List (Option LMPoint) :=
  let h := pushHistory hist nf
  (h, (List.range nf.length).map (fun i => smoothedAt h nf i))

/-- The hysteresis state `this._talkingState` (line 3153). -/
structure TalkingState where
  isTalking : Bool
  lastChange : Int
deriving DecidableEq, Repr

/-- Lines 3519-3538, the core of `analyzeTalking` once both lips are
present: measure the lip distance, update the debounced state, and compute
the displayed status/class from the raw measurement. -/
def analyzeTalkingCore (upperLip lowerLip : LMPoint) (ts : TalkingState) (now : Int) :
    TalkingState × String × String :=
  let distance := |upperLip.y - lowerLip.y|
  let isTalking : Bool := distance > 0.018
  let ts' :=
    if isTalking ≠ ts.isTalking then
      if now - ts.lastChange > 150 then { isTalking := isTalking, lastChange := now }
      else ts
    else ts
  if isTalking then (ts', "TALKING", "good") else (ts', "SILENT", "warning")

/-- Lines 3607-3613: classification of the computed Laplacian variance in
`analyzeFocus`. -/
def classifyFocus (variance : ℚ) : String × String :=
  if variance > 12 then ("SHARP", "good")
  else if variance > 6 then ("OK", "warning")
  else ("BLURRY", "bad")

/-- One RGBA pixel of the lighting sample (the alpha byte is never read by
the source). -/
structure Pixel where
  r : ℚ
  g : ℚ
  b : ℚ
deriving DecidableEq, Repr

/-- Line 3656: the standard luminance formula applied to one pixel. -/
def luminance (p : Pixel) : ℚ :=
  0.299 * p.r + 0.587 * p.g + 0.114 * p.b

/-- Lines 3652-3658: mean luminance over all pixels of the buffer. -/
def avgBrightness (pixels : List Pixel) : ℚ :=
  ((pixels.map luminance).sum) / pixels.length

/-- Lines 3661-3671: threshold classification of the average brightness. -/
def classifyBrightness (l : ℚ) : String × String :=
  if l < 50 then ("DARK", "bad")
  else if l < 90 then ("DIM", "warning")
  else if l > 220 then ("OVEREXPOSED", "bad")
  else if l > 180 then ("BRIGHT", "warning")
  else ("GOOD", "good")

/-- A detection box as returned by `ApiClient.detect` (normalized
coordinates, lines 3705-3709). -/
structure Box where
  x_min : ℚ
  y_min : ℚ
  x_max : ℚ
  y_max : ℚ
deriving DecidableEq, Repr

/-- Lines 3705-3725: the composition issue list, built by sequential
`issues.push` calls exactly in the order of the source. -/
def compositionIssues (face : Box) : List String :=
  let centerX := (face.x_min + face.x_max) / 2
  let centerY := (face.y_min + face.y_max) / 2
  let faceWidth := face.x_max - face.x_min
  let faceHeight := face.y_max - face.y_min
  let issues : List String := []
  let issues :=
    if faceWidth > 0.5 ∨ faceHeight > 0.6 then issues ++ ["TOO CLOSE"]
    else if faceWidth < 0.15 ∧ faceHeight < 0.2 then issues ++ ["TOO FAR"]
    else issues
  let issues :=
    if centerX < 0.3 then issues ++ ["→ RIGHT"]
    else if centerX > 0.7 then issues ++ ["← LEFT"]
    else issues
  let issues :=
    if centerY < 0.25 then issues ++ ["↓ DOWN"]
    else if centerY > 0.75 then issues ++ ["↑ UP"]
    else issues
  issues

/-- Lines 3727-3731: the composition status text and class. -/
def compositionStatus (face : Box) : String × String :=
  let issues := compositionIssues face
  if issues.length = 0 then ("GOOD", "good")
  else (String.intercalate " " issues, "bad")

/-- The same issue list written the way the specification states it: an
independently computed size segment, horizontal segment and vertical
segment, concatenated in that fixed order. -/
def compositionIssuesSpec (face : Box) : List String :=
  let centerX := (face.x_min + face.x_max) / 2
  let centerY := (face.y_min + face.y_max) / 2
  let faceWidth := face.x_max - face.x_min
  let faceHeight := face.y_max - face.y_min
  (if faceWidth > 0.5 ∨ faceHeight > 0.6 then ["TOO CLOSE"]
   else if faceWidth < 0.15 ∧ faceHeight < 0.2 then ["TOO FAR"]
   else []) ++
  (if centerX < 0.3 then ["→ RIGHT"]
   else if centerX > 0.7 then ["← LEFT"]
   else []) ++
  (if centerY < 0.25 then ["↓ DOWN"]
   else if centerY > 0.75 then ["↑ UP"]
   else [])

/-- The fixed, closed set of monitor keys (line 3139-3147). -/
inductive MonitorKey
  | orientation
  | talking
  | focus
  | lighting
  | presence
  | composition
  | sceneContext
deriving DecidableEq, Repr

/-- One entry of `this._monitors`: `{ enabled, status, class }`
(the DOM `element` reference is view-only and not modelled). -/
structure MonitorState where
  enabled : Bool
  status : String
  statusClass : String
deriving DecidableEq, Repr

/-- The whole `this._monitors` map, one field per key. -/
structure Monitors where
  orientation : MonitorState
  talking : MonitorState
  focus : MonitorState
  lighting : MonitorState
  presence : MonitorState
  composition : MonitorState
  sceneContext : MonitorState
deriving DecidableEq, Repr

def getMonitor (m : Monitors) : MonitorKey → MonitorState
  | .orientation => m.orientation
  | .talking => m.talking
  | .focus => m.focus
  | .lighting => m.lighting
  | .presence => m.presence
  | .composition => m.composition
  | .sceneContext => m.sceneContext

def setMonitor (m : Monitors) : MonitorKey → MonitorState → Monitors
  | .orientation, v => { m with orientation := v }
  | .talking, v => { m with talking := v }
  | .focus, v => { m with focus := v }
  | .lighting, v => { m with lighting := v }
  | .presence, v => { m with presence := v }
  | .composition, v => { m with composition := v }
  | .sceneContext, v => { m with sceneContext := v }

/-- The mutable fields of `ProductionMonitorWidget` that the monitor core
touches (constructor, lines 3139-3154; `_startBtn`/`_statusText` are view
text, kept as a plain string). -/
structure WidgetState where
  monitors : Monitors
  isMonitoring : Bool
  monitorInterval : Bool
  landmarkHistory : List Frame
  talkingState : TalkingState
  lastMoonDreamCall : Int
  sceneText : String
  statusText : String
deriving DecidableEq, Repr

/-- Outputs of the external collaborators consumed during one callback or
cycle: the clock, OpenCV readiness, frame availability for the remote
call, the focus sample source dimensions and computed Laplacian variance,
and the pixel buffer read by the lighting analyzer. -/
structure Env where
  now : Int
  cvReady : Bool
  frame : Bool
  focusSource : Option (ℕ × ℕ)
  focusVariance : ℚ
  lightingPixels : Option (List Pixel)
deriving DecidableEq

/-- Lines 3322-3334, `updateMonitorStatus`: write status text and class of
one monitor (the DOM class-list updates are view-only). -/
def updateMonitorStatus (s : WidgetState) (key : MonitorKey) (status statusClass : String) :
    WidgetState :=
  let m := getMonitor s.monitors key
  let m' := { m with status := status, statusClass := statusClass }
  { s with monitors := setMonitor s.monitors key m' }

/-- Lines 3307-3320, `toggleMonitor`: flip `enabled`; when the flip lands
on disabled, immediately force `OFF/disabled`. -/
def toggleMonitor (s : WidgetState) (key : MonitorKey) : WidgetState :=
  let m := getMonitor s.monitors key
  let s' := { s with monitors := setMonitor s.monitors key ({ m with enabled := !m.enabled }) }
  if !m.enabled then s'
  else updateMonitorStatus s' key "OFF" "disabled"

/-- Lines 3371-3381, `stopMonitoring`: drop the monitoring flag, restore
the button text, and clear the periodic timer.  Nothing else is touched. -/
def stopMonitoring (s : WidgetState) : WidgetState :=
  { s with isMonitoring := false, statusText := "Monitoring stopped.", monitorInterval := false }

/-- Lines 3488-3508, `analyzeOrientation`, lifted to the widget state
(nose tip is landmark 1, face edges are landmarks 234 and 454). -/
def analyzeOrientationStep (s : WidgetState) (landmarks : Frame) : WidgetState :=
  match lmAt landmarks 1, lmAt landmarks 234, lmAt landmarks 454 with
  | some nose, some left, some right =>
    let noseToLeft := |nose.x - left.x|
    let noseToRight := |nose.x - right.x|
    let diff := |noseToLeft - noseToRight|
    if diff ≤ 0.15 then updateMonitorStatus s .orientation "STRAIGHT" "good"
    else if noseToLeft > noseToRight then updateMonitorStatus s .orientation "LEFT" "bad"
    else updateMonitorStatus s .orientation "RIGHT" "bad"
  | _, _, _ => updateMonitorStatus s .orientation "ERROR" "warning"

/-- Lines 3510-3539, `analyzeTalking`, lifted to the widget state (upper
lip is landmark 13, lower lip landmark 14). -/
def analyzeTalkingStep (s : WidgetState) (landmarks : Frame) (now : Int) : WidgetState :=
  match lmAt landmarks 13, lmAt landmarks 14 with
  | some up, some low =>
    let r := analyzeTalkingCore up low s.talkingState now
    updateMonitorStatus { s with talkingState := r.1 } .talking r.2.1 r.2.2
  | _, _ => updateMonitorStatus s .talking "ERROR" "warning"

/-- Lines 3541-3618, `analyzeFocus`, lifted to the widget state.  The
canvas crop, grayscale conversion, Laplacian and `meanStdDev` are OpenCV
collaborator work, so the computed scalar arrives through
`env.focusVariance`; the `catch` branch (OpenCV throwing) is not modelled.
Eyes are landmarks 33 and 263, nose is landmark 1. -/
def analyzeFocusStep (s : WidgetState) (landmarks : Frame) (env : Env) : WidgetState :=
  if !env.cvReady then updateMonitorStatus s .focus "CV N/A" "warning"
  else
    match lmAt landmarks 33, lmAt landmarks 263, lmAt landmarks 1 with
    | some _, some _, some _ =>
      match env.focusSource with
      | none => updateMonitorStatus s .focus "NO SOURCE" "warning"
      | some (w, h) =>
        if w < 40 ∨ h < 40 then updateMonitorStatus s .focus "WAITING" "warning"
        else
          let r := classifyFocus env.focusVariance
          updateMonitorStatus s .focus r.1 r.2
    | _, _, _ => updateMonitorStatus s .focus "NO DATA" "warning"

/-- Lines 3620-3676, `analyzeLighting`, lifted to the widget state.  With
no usable source the status is `N/A/disabled`; an empty pixel buffer makes
`avgBrightness` the JS value `NaN`, for which every threshold comparison
is false, landing on `GOOD/good`; the `catch` branch is not modelled. -/
def analyzeLightingStep (s : WidgetState) (env : Env) : WidgetState :=
  match env.lightingPixels with
  | none => updateMonitorStatus s .lighting "N/A" "disabled"
  | some ps =>
    if ps.isEmpty then updateMonitorStatus s .lighting "GOOD" "good"
    else
      let r := classifyBrightness (avgBrightness ps)
      updateMonitorStatus s .lighting r.1 r.2

/-- Lines 3410-3443, `processFrameResults`: the FaceMesh callback.
`results` is the first entry of `multiFaceLandmarks` when one face was
found.  This is the only asynchronous callback that starts with the
liveness check `if (!this._isMonitoring) return`. -/
def processFrameResults (s : WidgetState) (results : Option Frame) (env : Env) : WidgetState :=
  if !s.isMonitoring then s
  else
    match results with
    | some raw =>
      let r := smoothLandmarks s.landmarkHistory raw
      let s := { s with landmarkHistory := r.1 }
      let landmarks := r.2
      let s := if (getMonitor s.monitors .orientation).enabled
               then analyzeOrientationStep s landmarks else s
      let s := if (getMonitor s.monitors .talking).enabled
               then analyzeTalkingStep s landmarks env.now else s
      let s := if (getMonitor s.monitors .focus).enabled && env.cvReady
               then analyzeFocusStep s landmarks env else s
      s
    | none =>
      let s := if (getMonitor s.monitors .orientation).enabled
               then updateMonitorStatus s .orientation "NO FACE" "bad" else s
      let s := if (getMonitor s.monitors .talking).enabled
               then updateMonitorStatus s .talking "NO FACE" "bad" else s
      let s := if (getMonitor s.monitors .focus).enabled
               then updateMonitorStatus s .focus "NO FACE" "bad" else s
      s

/-- Lines 3686-3735: the fulfilled-promise callback of the shared
`ApiClient.detect` call (`objects = response.objects || []`).  Presence
and composition each re-check their own `enabled` flag; the early
`return` after `NO FACE` only skips the overlay drawing. -/
def detectThen (s : WidgetState) (objects : List Box) : WidgetState :=
  let s :=
    if (getMonitor s.monitors .presence).enabled then
      if objects.length > 0 then updateMonitorStatus s .presence "PRESENT" "good"
      else updateMonitorStatus s .presence "ABSENT" "bad"
    else s
  if (getMonitor s.monitors .composition).enabled then
    match objects with
    | [] => updateMonitorStatus s .composition "NO FACE" "bad"
    | face :: _ =>
      let r := compositionStatus face
      updateMonitorStatus s .composition r.1 r.2
  else s

/-- Lines 3736-3743: the rejected-promise callback of the detect call. -/
def detectCatch (s : WidgetState) : WidgetState :=
  let s :=
    if (getMonitor s.monitors .presence).enabled
    then updateMonitorStatus s .presence "ERROR" "warning" else s
  if (getMonitor s.monitors .composition).enabled
  then updateMonitorStatus s .composition "ERROR" "warning" else s

/-- Lines 3748-3753: the fulfilled-promise callback of `ApiClient.caption`
(`caption = response.caption || 'No description'`).  It re-checks neither
the liveness flag nor the `enabled` flag. -/
def captionThen (s : WidgetState) (caption : Option String) : WidgetState :=
  let s := updateMonitorStatus s .sceneContext "UPDATED" "good"
  { s with sceneText := caption.getD "No description" }

/-- Lines 3754-3756: the rejected-promise callback of the caption call. -/
def captionCatch (s : WidgetState) : WidgetState :=
  updateMonitorStatus s .sceneContext "ERROR" "warning"

/-- The two remote requests a cycle may dispatch. -/
inductive Request
  | detect
  | caption
deriving DecidableEq, Repr

/-- Lines 3678-3758, `runMoonDreamAnalysis`: with no current frame it
returns at once; otherwise it dispatches the shared detect call when
presence or composition is enabled, and the caption call when scene
context is enabled.  Dispatching mutates no state — the state changes
happen later in the promise callbacks above. -/
def runMoonDreamAnalysis (s : WidgetState) (frame : Bool) : WidgetState × List Request :=
  if !frame then (s, [])
  else
    let needsDetect :=
      (getMonitor s.monitors .presence).enabled || (getMonitor s.monitors .composition).enabled
    ( s,
      (if needsDetect then [Request.detect] else []) ++
      (if (getMonitor s.monitors .sceneContext).enabled then [Request.caption] else []) )

/-- Lines 3383-3408, `runMonitoringCycle`: liveness guard, the (stateless
here) FaceMesh dispatch, synchronous lighting when enabled, then the
throttle gate — strictly more than 2000 ms since the last MoonDream call
advances the timestamp to `now` and invokes `runMoonDreamAnalysis`. -/
def runMonitoringCycle (s : WidgetState) (env : Env) : WidgetState × List Request :=
  if !s.isMonitoring then (s, [])
  else
    let s1 := if (getMonitor s.monitors .lighting).enabled then analyzeLightingStep s env else s
    if env.now - s1.lastMoonDreamCall > 2000 then
      runMoonDreamAnalysis { s1 with lastMoonDreamCall := env.now } env.frame
    else (s1, [])

/-- Run the cycle over a list of environments (one per 1500 ms tick),
counting the cycles in which at least one remote request was issued. -/
def cycleRun : WidgetState → List Env → WidgetState × ℕ
  | s, [] => (s, 0)
  | s, e :: rest =>
    let r := runMonitoringCycle s e
    let t := cycleRun r.1 rest
    (t.1, (if r.2.isEmpty then 0 else 1) + t.2)

/-- A concrete mid-session monitor map: orientation, talking, presence and
scene context enabled and already populated by earlier cycles; focus,
lighting and composition toggled off. -/
def monitorsRunningEx : Monitors :=
  { orientation := { enabled := true, status := "STRAIGHT", statusClass := "good" },
    talking := { enabled := true, status := "SILENT", statusClass := "warning" },
    focus := { enabled := false, status := "OFF", statusClass := "disabled" },
    lighting := { enabled := false, status := "OFF", statusClass := "disabled" },
    presence := { enabled := true, status := "Analyzing...", statusClass := "warning" },
    composition := { enabled := false, status := "OFF", statusClass := "disabled" },
    sceneContext := { enabled := true, status := "UPDATED", statusClass := "good" } }

/-- A concrete widget state in the Monitoring state. -/
def widgetRunningEx : WidgetState :=
  { monitors := monitorsRunningEx, isMonitoring := true, monitorInterval := true,
    landmarkHistory := [], talkingState := { isTalking := false, lastChange := 0 },
    lastMoonDreamCall := 0, sceneText := "a person", statusText := "Monitoring active..." }

/-- A concrete widget state whose composition monitor is enabled. -/
def widgetCompEx : WidgetState :=
  { widgetRunningEx with monitors := { monitorsRunningEx with
      composition := { enabled := true, status := "N/A", statusClass := "disabled" } } }

/-- A concrete detection box: width 0.6, height 0.5, centered at (0.5, 0.5). -/
def boxEx : Box :=
  { x_min := 0.2, y_min := 0.25, x_max := 0.8, y_max := 0.75 }

/-- A cycle environment at clock `n` with a frame available and no other
collaborator input. -/
def envEx (n : Int) : Env :=
  { now := n, cvReady := false, frame := true, focusSource := none, focusVariance := 0,
    lightingPixels := none }

/-- A cycle environment at clock 5000 with no current frame available. -/
def envNoFrameEx : Env :=
  { now := 5000, cvReady := false, frame := false, focusSource := none, focusVariance := 0,
    lightingPixels := none }

/-- Concrete one-frame landmark history and incoming frame for the
smoother. -/
def histC5 : List Frame := [[some { x := 0, y := 0, z := none }]]

def nfC5 : Frame := [some { x := 1, y := 1, z := some 2 }]

theorem smoothAcc_go (i : ℕ) (h : List Frame) (a : ℚ × ℚ × ℚ × ℕ) :
    h.foldl
      (fun a f =>
        match lmAt f i with
        | some p => (a.1 + p.x, a.2.1 + p.y, a.2.2.1 + zContrib p, a.2.2.2 + 1)
        | none => a) a =
      (a.1 + ((h.filterMap (fun f => lmAt f i)).map LMPoint.x).sum,
       a.2.1 + ((h.filterMap (fun f => lmAt f i)).map LMPoint.y).sum,
       a.2.2.1 + ((h.filterMap (fun f => lmAt f i)).map zContrib).sum,
       a.2.2.2 + (h.filterMap (fun f => lmAt f i)).length) := by
  induction h generalizing a with
  | nil => simp
  | cons f t ih =>
    cases hf : lmAt f i with
    | none => simp [List.foldl_cons, List.filterMap_cons, hf, ih]
    | some p =>
      simp only [List.foldl_cons, List.filterMap_cons, hf, ih, List.map_cons, List.sum_cons,
        List.length_cons, Prod.mk.injEq]
      refine ⟨by ring, by ring, by ring, by omega⟩

theorem smoothAcc_spec (h : List Frame) (i : ℕ) :
    smoothAcc h i =
      (((h.filterMap (fun f => lmAt f i)).map LMPoint.x).sum,
       ((h.filterMap (fun f => lmAt f i)).map LMPoint.y).sum,
       ((h.filterMap (fun f => lmAt f i)).map zContrib).sum,
       (h.filterMap (fun f => lmAt f i)).length) := by
  unfold smoothAcc
  rw [smoothAcc_go]
  simp

theorem getMonitor_update_same (s : WidgetState) (k : MonitorKey) (a b : String) :
    getMonitor (updateMonitorStatus s k a b).monitors k =
      { getMonitor s.monitors k with status := a, statusClass := b } := by
  cases k <;> simp [updateMonitorStatus, getMonitor, setMonitor]

theorem getMonitor_update_ne (s : WidgetState) (k k' : MonitorKey) (a b : String)
    (h : k' ≠ k) :
    getMonitor (updateMonitorStatus s k a b).monitors k' = getMonitor s.monitors k' := by
  cases k <;> cases k' <;> simp_all [updateMonitorStatus, getMonitor, setMonitor]

theorem getMonitor_update_enabled (s : WidgetState) (k k' : MonitorKey) (a b : String) :
    (getMonitor (updateMonitorStatus s k a b).monitors k').enabled =
      (getMonitor s.monitors k').enabled := by
  by_cases h : k' = k
  · subst h; rw [getMonitor_update_same]
  · rw [getMonitor_update_ne _ _ _ _ _ h]

theorem getMonitor_set_same (m : Monitors) (k : MonitorKey) (v : MonitorState) :
    getMonitor (setMonitor m k v) k = v := by
  cases k <;> rfl

theorem compositionIssues_eq_spec (face : Box) :
    compositionIssues face = compositionIssuesSpec face := by
  simp only [compositionIssues, compositionIssuesSpec]
  split_ifs <;> simp

theorem detectThen_composition (s : WidgetState) (face : Box) (rest : List Box)
    (hen : (getMonitor s.monitors MonitorKey.composition).enabled = true) :
    getMonitor (detectThen s (face :: rest)).monitors MonitorKey.composition =
      { getMonitor s.monitors MonitorKey.composition with
          status := (compositionStatus face).1,
          statusClass := (compositionStatus face).2 } := by
  simp only [detectThen]
  split_ifs with h1 h2 h3 h3 <;>
    simp_all [getMonitor_update_ne, getMonitor_update_same]

theorem analyzeOrientationStep_other (s : WidgetState) (lm : Frame) (k : MonitorKey)
    (h : k ≠ MonitorKey.orientation) :
    getMonitor (analyzeOrientationStep s lm).monitors k = getMonitor s.monitors k := by
  unfold analyzeOrientationStep
  rcases lmAt lm 1 with _ | nose <;> rcases lmAt lm 234 with _ | left <;>
    rcases lmAt lm 454 with _ | right <;>
    simp only [] <;> (try split_ifs) <;> simp [getMonitor_update_ne, h]

theorem analyzeTalkingStep_other (s : WidgetState) (lm : Frame) (now : Int) (k : MonitorKey)
    (h : k ≠ MonitorKey.talking) :
    getMonitor (analyzeTalkingStep s lm now).monitors k = getMonitor s.monitors k := by
  unfold analyzeTalkingStep
  rcases lmAt lm 13 with _ | up <;> rcases lmAt lm 14 with _ | low <;>
    simp only [] <;> simp [getMonitor_update_ne, h]

theorem analyzeFocusStep_other (s : WidgetState) (lm : Frame) (env : Env) (k : MonitorKey)
    (h : k ≠ MonitorKey.focus) :
    getMonitor (analyzeFocusStep s lm env).monitors k = getMonitor s.monitors k := by
  obtain ⟨n, cv, fr, fs, fv, lp⟩ := env
  unfold analyzeFocusStep
  cases cv <;> rcases lmAt lm 33 with _ | a <;> rcases lmAt lm 263 with _ | b <;>
    rcases lmAt lm 1 with _ | c <;> rcases fs with _ | ⟨w, hh⟩ <;>
    (try split_ifs) <;> (try simp [getMonitor_update_ne, h]) <;>
    (try split_ifs) <;> simp [getMonitor_update_ne, h]

theorem analyzeOrientationStep_enabled (s : WidgetState) (lm : Frame) (k : MonitorKey) :
    (getMonitor (analyzeOrientationStep s lm).monitors k).enabled =
      (getMonitor s.monitors k).enabled := by
  unfold analyzeOrientationStep
  rcases lmAt lm 1 with _ | nose <;> rcases lmAt lm 234 with _ | left <;>
    rcases lmAt lm 454 with _ | right <;> (try simp only []) <;> (try split_ifs) <;>
    simp [getMonitor_update_enabled]

theorem analyzeTalkingStep_enabled (s : WidgetState) (lm : Frame) (now : Int) (k : MonitorKey) :
    (getMonitor (analyzeTalkingStep s lm now).monitors k).enabled =
      (getMonitor s.monitors k).enabled := by
  unfold analyzeTalkingStep
  rcases lmAt lm 13 with _ | up <;> rcases lmAt lm 14 with _ | low <;>
    simp [getMonitor_update_enabled]

theorem ite_update_enabled (c : Prop) [Decidable c] (s : WidgetState) (key : MonitorKey)
    (a b : String) (k : MonitorKey) :
    (getMonitor (if c then updateMonitorStatus s key a b else s).monitors k).enabled =
      (getMonitor s.monitors k).enabled := by
  split_ifs <;> simp [getMonitor_update_enabled]

theorem ite_update_pres (c : Prop) [Decidable c] (s : WidgetState) (key : MonitorKey)
    (a b : String) (k : MonitorKey)
    (hk : (getMonitor s.monitors k).enabled = false)
    (hc : c → (getMonitor s.monitors key).enabled = true) :
    getMonitor (if c then updateMonitorStatus s key a b else s).monitors k =
      getMonitor s.monitors k := by
  by_cases hcc : c
  · have hen := hc hcc
    by_cases h : k = key
    · subst h; rw [hk] at hen; cases hen
    · rw [if_pos hcc, getMonitor_update_ne _ _ _ _ _ h]
  · rw [if_neg hcc]

theorem ite_orientation_pres (c : Prop) [Decidable c] (s : WidgetState) (lm : Frame)
    (k : MonitorKey)
    (hk : (getMonitor s.monitors k).enabled = false)
    (hc : c → (getMonitor s.monitors MonitorKey.orientation).enabled = true) :
    getMonitor (if c then analyzeOrientationStep s lm else s).monitors k =
      getMonitor s.monitors k := by
  by_cases hcc : c
  · have hen := hc hcc
    by_cases h : k = MonitorKey.orientation
    · subst h; rw [hk] at hen; cases hen
    · rw [if_pos hcc, analyzeOrientationStep_other _ _ _ h]
  · rw [if_neg hcc]

theorem ite_orientation_enabled (c : Prop) [Decidable c] (s : WidgetState) (lm : Frame)
    (k : MonitorKey) :
    (getMonitor (if c then analyzeOrientationStep s lm else s).monitors k).enabled =
      (getMonitor s.monitors k).enabled := by
  split_ifs <;> simp [analyzeOrientationStep_enabled]

theorem ite_talking_pres (c : Prop) [Decidable c] (s : WidgetState) (lm : Frame) (now : Int)
    (k : MonitorKey)
    (hk : (getMonitor s.monitors k).enabled = false)
    (hc : c → (getMonitor s.monitors MonitorKey.talking).enabled = true) :
    getMonitor (if c then analyzeTalkingStep s lm now else s).monitors k =
      getMonitor s.monitors k := by
  by_cases hcc : c
  · have hen := hc hcc
    by_cases h : k = MonitorKey.talking
    · subst h; rw [hk] at hen; cases hen
    · rw [if_pos hcc, analyzeTalkingStep_other _ _ _ _ h]
  · rw [if_neg hcc]

theorem ite_talking_enabled (c : Prop) [Decidable c] (s : WidgetState) (lm : Frame) (now : Int)
    (k : MonitorKey) :
    (getMonitor (if c then analyzeTalkingStep s lm now else s).monitors k).enabled =
      (getMonitor s.monitors k).enabled := by
  split_ifs <;> simp [analyzeTalkingStep_enabled]

theorem ite_focus_pres (c : Prop) [Decidable c] (s : WidgetState) (lm : Frame) (env : Env)
    (k : MonitorKey)
    (hk : (getMonitor s.monitors k).enabled = false)
    (hc : c → (getMonitor s.monitors MonitorKey.focus).enabled = true) :
    getMonitor (if c then analyzeFocusStep s lm env else s).monitors k =
      getMonitor s.monitors k := by
  by_cases hcc : c
  · have hen := hc hcc
    by_cases h : k = MonitorKey.focus
    · subst h; rw [hk] at hen; cases hen
    · rw [if_pos hcc, analyzeFocusStep_other _ _ _ _ h]
  · rw [if_neg hcc]

theorem processFrameResults_disabled (s : WidgetState) (r : Option Frame) (env : Env)
    (k : MonitorKey) (hk : (getMonitor s.monitors k).enabled = false) :
    getMonitor (processFrameResults s r env).monitors k = getMonitor s.monitors k := by
  unfold processFrameResults
  cases hm : s.isMonitoring with
  | false => simp
  | true =>
    simp only [Bool.not_true, Bool.false_eq_true, if_false]
    cases r with
    | none =>
      rw [ite_update_pres, ite_update_pres, ite_update_pres]
      · exact hk
      · exact fun h => h
      · rw [ite_update_enabled]; exact hk
      · exact fun h => h
      · rw [ite_update_enabled, ite_update_enabled]; exact hk
      · exact fun h => h
    | some raw =>
      rw [ite_focus_pres, ite_talking_pres, ite_orientation_pres]
      · exact hk
      · exact fun h => h
      · rw [ite_orientation_enabled]; exact hk
      · exact fun h => h
      · rw [ite_talking_enabled, ite_orientation_enabled]; exact hk
      · exact fun h => by simp only [Bool.and_eq_true] at h; exact h.1

theorem detectThen_presence_disabled (s : WidgetState) (objs : List Box)
    (hp : (getMonitor s.monitors MonitorKey.presence).enabled = false) :
    getMonitor (detectThen s objs).monitors MonitorKey.presence =
      getMonitor s.monitors MonitorKey.presence := by
  unfold detectThen
  cases objs <;> split_ifs <;>
    (try simp_all [getMonitor_update_ne, getMonitor_update_same, getMonitor_update_enabled]) <;>
    (try split_ifs) <;>
    simp_all [getMonitor_update_ne, getMonitor_update_same, getMonitor_update_enabled]

theorem detectThen_composition_disabled (s : WidgetState) (objs : List Box)
    (hc : (getMonitor s.monitors MonitorKey.composition).enabled = false) :
    getMonitor (detectThen s objs).monitors MonitorKey.composition =
      getMonitor s.monitors MonitorKey.composition := by
  unfold detectThen
  cases objs <;> split_ifs <;>
    simp_all [getMonitor_update_ne, getMonitor_update_same, getMonitor_update_enabled]

theorem detectThen_presence_present (s : WidgetState) (objs : List Box)
    (hp : (getMonitor s.monitors MonitorKey.presence).enabled = true)
    (hne : objs ≠ []) :
    (getMonitor (detectThen s objs).monitors MonitorKey.presence).status = "PRESENT" := by
  cases objs with
  | nil => exact absurd rfl hne
  | cons o rest =>
    unfold detectThen
    split_ifs <;>
      (try simp_all [getMonitor_update_ne, getMonitor_update_same,
        getMonitor_update_enabled]) <;>
      (try split_ifs) <;>
      simp_all [getMonitor_update_ne, getMonitor_update_same, getMonitor_update_enabled]

theorem detectCatch_presence_disabled (s : WidgetState)
    (hp : (getMonitor s.monitors MonitorKey.presence).enabled = false) :
    getMonitor (detectCatch s).monitors MonitorKey.presence =
      getMonitor s.monitors MonitorKey.presence := by
  unfold detectCatch
  split_ifs <;>
    (try simp_all [getMonitor_update_ne, getMonitor_update_same, getMonitor_update_enabled]) <;>
    (try split_ifs) <;>
    simp_all [getMonitor_update_ne, getMonitor_update_same, getMonitor_update_enabled]

theorem detectCatch_composition_disabled (s : WidgetState)
    (hc : (getMonitor s.monitors MonitorKey.composition).enabled = false) :
    getMonitor (detectCatch s).monitors MonitorKey.composition =
      getMonitor s.monitors MonitorKey.composition := by
  unfold detectCatch
  split_ifs <;>
    simp_all [getMonitor_update_ne, getMonitor_update_same, getMonitor_update_enabled]

theorem captionThen_sceneContext (s : WidgetState) (c : Option String) :
    getMonitor (captionThen s c).monitors MonitorKey.sceneContext =
      { getMonitor s.monitors MonitorKey.sceneContext with
          status := "UPDATED", statusClass := "good" } := by
  unfold captionThen
  exact getMonitor_update_same s MonitorKey.sceneContext "UPDATED" "good"

theorem captionCatch_sceneContext (s : WidgetState) :
    getMonitor (captionCatch s).monitors MonitorKey.sceneContext =
      { getMonitor s.monitors MonitorKey.sceneContext with
          status := "ERROR", statusClass := "warning" } := by
  unfold captionCatch
  exact getMonitor_update_same s MonitorKey.sceneContext "ERROR" "warning"

theorem toggleMonitor_off (s : WidgetState) (k : MonitorKey)
    (hk : (getMonitor s.monitors k).enabled = true) :
    getMonitor (toggleMonitor s k).monitors k =
      { enabled := false, status := "OFF", statusClass := "disabled" } := by
  unfold toggleMonitor
  rw [if_neg (by simp [hk])]
  rw [getMonitor_update_same]
  simp only [getMonitor_set_same]
  rw [hk]
  rfl

theorem processFrameResults_stopped (s : WidgetState) (r : Option Frame) (env : Env)
    (hm : s.isMonitoring = false) :
    processFrameResults s r env = s := by
  unfold processFrameResults
  rw [if_pos (by simp [hm])]

theorem updateMonitorStatus_lastCall (s : WidgetState) (k : MonitorKey) (a b : String) :
    (updateMonitorStatus s k a b).lastMoonDreamCall = s.lastMoonDreamCall := rfl

theorem analyzeLightingStep_lastCall (s : WidgetState) (env : Env) :
    (analyzeLightingStep s env).lastMoonDreamCall = s.lastMoonDreamCall := by
  unfold analyzeLightingStep
  rcases env.lightingPixels with _ | ps <;> simp [updateMonitorStatus] <;>
    split_ifs <;> rfl

theorem runMoonDreamAnalysis_state (s : WidgetState) (frame : Bool) :
    (runMoonDreamAnalysis s frame).1 = s := by
  unfold runMoonDreamAnalysis
  split_ifs <;> rfl

theorem detectThen_lastCall (s : WidgetState) (objs : List Box) :
    (detectThen s objs).lastMoonDreamCall = s.lastMoonDreamCall := by
  cases objs <;> simp only [detectThen] <;> split_ifs <;> rfl

theorem detectCatch_lastCall (s : WidgetState) :
    (detectCatch s).lastMoonDreamCall = s.lastMoonDreamCall := by
  simp only [detectCatch]
  split_ifs <;> rfl

theorem captionThen_lastCall (s : WidgetState) (c : Option String) :
    (captionThen s c).lastMoonDreamCall = s.lastMoonDreamCall := rfl

theorem captionCatch_lastCall (s : WidgetState) :
    (captionCatch s).lastMoonDreamCall = s.lastMoonDreamCall := rfl

theorem cycle_req_gate (s : WidgetState) (e : Env)
    (h : (runMonitoringCycle s e).2 ≠ []) :
    e.now - s.lastMoonDreamCall > 2000 := by
  unfold runMonitoringCycle at h
  by_cases hm : s.isMonitoring
  · rw [if_neg (by simp [hm])] at h
    by_cases hg : e.now -
        (if (getMonitor s.monitors MonitorKey.lighting).enabled = true
          then analyzeLightingStep s e else s).lastMoonDreamCall > 2000
    · have hl : (if (getMonitor s.monitors MonitorKey.lighting).enabled = true
          then analyzeLightingStep s e else s).lastMoonDreamCall = s.lastMoonDreamCall := by
        split_ifs <;> simp [analyzeLightingStep_lastCall]
      rw [hl] at hg
      exact hg
    · rw [if_neg hg] at h
      simp at h
  · rw [if_pos (by simp [Bool.not_eq_true] at hm; simp [hm])] at h
    simp at h

theorem cycle_req_last (s : WidgetState) (e : Env)
    (h : (runMonitoringCycle s e).2 ≠ []) :
    (runMonitoringCycle s e).1.lastMoonDreamCall = e.now := by
  unfold runMonitoringCycle at h ⊢
  by_cases hm : s.isMonitoring
  · rw [if_neg (by simp [hm])] at h ⊢
    by_cases hg : e.now -
        (if (getMonitor s.monitors MonitorKey.lighting).enabled = true
          then analyzeLightingStep s e else s).lastMoonDreamCall > 2000
    · rw [if_pos hg] at h ⊢
      rw [runMoonDreamAnalysis_state]
    · rw [if_neg hg] at h
      simp at h
  · rw [if_pos (by simp [Bool.not_eq_true] at hm; simp [hm])] at h
    simp at h

theorem cycle_gate_last (s : WidgetState) (e : Env)
    (hm : s.isMonitoring = true)
    (hg : e.now - s.lastMoonDreamCall > 2000) :
    (runMonitoringCycle s e).1.lastMoonDreamCall = e.now := by
  unfold runMonitoringCycle
  rw [if_neg (by simp [hm])]
  have hl : (if (getMonitor s.monitors MonitorKey.lighting).enabled = true
      then analyzeLightingStep s e else s).lastMoonDreamCall = s.lastMoonDreamCall := by
    split_ifs <;> simp [analyzeLightingStep_lastCall]
  rw [if_pos (by rw [hl]; exact hg), runMoonDreamAnalysis_state]

theorem cycle_no_consec (s : WidgetState) (e1 e2 : Env)
    (hgap : e2.now - e1.now ≤ 2000)
    (h1 : (runMonitoringCycle s e1).2 ≠ []) :
    (runMonitoringCycle (runMonitoringCycle s e1).1 e2).2 = [] := by
  by_contra h2
  have g2 := cycle_req_gate _ _ h2
  rw [cycle_req_last _ _ h1] at g2
  omega

theorem cycleRun_five_bound (s : WidgetState) (t : Int) (e0 e1 e2 e3 e4 : Env)
    (h0 : e0.now = t) (h1 : e1.now = t + 1500) (h2 : e2.now = t + 3000)
    (h3 : e3.now = t + 4500) (h4 : e4.now = t + 6000) :
    (cycleRun s [e0, e1, e2, e3, e4]).2 ≤ 4 := by
  simp only [cycleRun, List.isEmpty_iff]
  have n01 : ¬ (runMonitoringCycle s e0).2 = [] →
      (runMonitoringCycle (runMonitoringCycle s e0).1 e1).2 = [] :=
    fun h => cycle_no_consec s e0 e1 (by omega) h
  have n12 : ¬ (runMonitoringCycle (runMonitoringCycle s e0).1 e1).2 = [] →
      (runMonitoringCycle (runMonitoringCycle (runMonitoringCycle s e0).1 e1).1 e2).2 = [] :=
    fun h => cycle_no_consec (runMonitoringCycle s e0).1 e1 e2 (by omega) h
  have n23 : ¬ (runMonitoringCycle (runMonitoringCycle (runMonitoringCycle s e0).1 e1).1
        e2).2 = [] →
      (runMonitoringCycle (runMonitoringCycle (runMonitoringCycle (runMonitoringCycle s
        e0).1 e1).1 e2).1 e3).2 = [] :=
    fun h => cycle_no_consec (runMonitoringCycle (runMonitoringCycle s e0).1 e1).1 e2 e3
      (by omega) h
  have n34 : ¬ (runMonitoringCycle (runMonitoringCycle (runMonitoringCycle
        (runMonitoringCycle s e0).1 e1).1 e2).1 e3).2 = [] →
      (runMonitoringCycle (runMonitoringCycle (runMonitoringCycle (runMonitoringCycle
        (runMonitoringCycle s e0).1 e1).1 e2).1 e3).1 e4).2 = [] :=
    fun h => cycle_no_consec (runMonitoringCycle (runMonitoringCycle (runMonitoringCycle s
      e0).1 e1).1 e2).1 e3 e4 (by omega) h
  by_cases a0 : (runMonitoringCycle s e0).2 = [] <;>
    by_cases a1 : (runMonitoringCycle (runMonitoringCycle s e0).1 e1).2 = [] <;>
    by_cases a2 : (runMonitoringCycle (runMonitoringCycle (runMonitoringCycle s e0).1
      e1).1 e2).2 = [] <;>
    by_cases a3 : (runMonitoringCycle (runMonitoringCycle (runMonitoringCycle
      (runMonitoringCycle s e0).1 e1).1 e2).1 e3).2 = [] <;>
    by_cases a4 : (runMonitoringCycle (runMonitoringCycle (runMonitoringCycle
      (runMonitoringCycle (runMonitoringCycle s e0).1 e1).1 e2).1 e3).1 e4).2 = [] <;>
    first
      | exact absurd (n01 (by assumption)) (by assumption)
      | exact absurd (n12 (by assumption)) (by assumption)
      | exact absurd (n23 (by assumption)) (by assumption)
      | exact absurd (n34 (by assumption)) (by assumption)
      | (simp [a0, a1, a2, a3, a4])

/-- Claim C1, counterexample: in a concrete Monitoring-state widget whose
orientation monitor shows `STRAIGHT/good`, invoking `stopMonitoring` does
not reset that MonitorState to `N/A/disabled` — the claimed reset does not
happen. -/
theorem stopMonitoring_no_reset_cex :
    widgetRunningEx.isMonitoring = true ∧
    ¬ ((getMonitor (stopMonitoring widgetRunningEx).monitors
          MonitorKey.orientation).status = "N/A" ∧
       (getMonitor (stopMonitoring widgetRunningEx).monitors
          MonitorKey.orientation).statusClass = "disabled") := by
  decide

/-- Claim C1, amended: when monitoring stops (`stopMonitoring` invoked in
the Monitoring state), the monitoring flag and the periodic timer are
cleared, but every MonitorState in the aggregator map is left exactly as
it was — no status is reset to `N/A/disabled`. -/
theorem stopMonitoring_keeps_statuses (s : WidgetState) (hm : s.isMonitoring = true) :
    (stopMonitoring s).isMonitoring = false ∧
    (stopMonitoring s).monitorInterval = false ∧
    (stopMonitoring s).monitors = s.monitors :=
  ⟨rfl, rfl, rfl⟩

theorem stopMonitoring_keeps_statuses_w :
    (stopMonitoring widgetRunningEx).isMonitoring = false ∧
    (stopMonitoring widgetRunningEx).monitorInterval = false ∧
    (stopMonitoring widgetRunningEx).monitors = widgetRunningEx.monitors :=
  stopMonitoring_keeps_statuses widgetRunningEx rfl

/-- Claim C2, counterexample: toggling the scene-context monitor off does
set `OFF/disabled` synchronously, but a caption response that was pending
at toggle time overwrites that `OFF` status with `UPDATED/good` while the
monitor is still disabled — the caption callback never re-checks the
`enabled` flag. -/
theorem toggle_off_caption_overwrite_cex :
    getMonitor (toggleMonitor widgetRunningEx MonitorKey.sceneContext).monitors
        MonitorKey.sceneContext =
      { enabled := false, status := "OFF", statusClass := "disabled" } ∧
    getMonitor (captionThen (toggleMonitor widgetRunningEx MonitorKey.sceneContext)
        (some "a person")).monitors MonitorKey.sceneContext =
      { enabled := false, status := "UPDATED", statusClass := "good" } := by
  decide

/-- Claim C2, amended: toggling any enabled monitor off immediately and
synchronously sets `OFF/disabled`; the detect-path callbacks (fulfilled
and rejected) and the landmark callback all re-check the `enabled` flag
and never overwrite a disabled monitor's state, but the caption callbacks
for scene context do not re-check it: a pending caption response (or
failure) overwrites the `OFF` status even while the monitor remains
disabled. -/
theorem toggle_off_sync_and_async_guards :
    (∀ (s : WidgetState) (k : MonitorKey), (getMonitor s.monitors k).enabled = true →
      getMonitor (toggleMonitor s k).monitors k =
        { enabled := false, status := "OFF", statusClass := "disabled" }) ∧
    (∀ (s : WidgetState) (objs : List Box),
      ((getMonitor s.monitors MonitorKey.presence).enabled = false →
        getMonitor (detectThen s objs).monitors MonitorKey.presence =
          getMonitor s.monitors MonitorKey.presence) ∧
      ((getMonitor s.monitors MonitorKey.composition).enabled = false →
        getMonitor (detectThen s objs).monitors MonitorKey.composition =
          getMonitor s.monitors MonitorKey.composition)) ∧
    (∀ s : WidgetState,
      ((getMonitor s.monitors MonitorKey.presence).enabled = false →
        getMonitor (detectCatch s).monitors MonitorKey.presence =
          getMonitor s.monitors MonitorKey.presence) ∧
      ((getMonitor s.monitors MonitorKey.composition).enabled = false →
        getMonitor (detectCatch s).monitors MonitorKey.composition =
          getMonitor s.monitors MonitorKey.composition)) ∧
    (∀ (s : WidgetState) (r : Option Frame) (env : Env) (k : MonitorKey),
      (getMonitor s.monitors k).enabled = false →
      getMonitor (processFrameResults s r env).monitors k = getMonitor s.monitors k) ∧
    (∀ (s : WidgetState) (c : Option String),
      (getMonitor (captionThen s c).monitors MonitorKey.sceneContext).status = "UPDATED" ∧
      (getMonitor (captionCatch s).monitors MonitorKey.sceneContext).status = "ERROR") :=
  ⟨toggleMonitor_off,
   fun s objs => ⟨detectThen_presence_disabled s objs, detectThen_composition_disabled s objs⟩,
   fun s => ⟨detectCatch_presence_disabled s, detectCatch_composition_disabled s⟩,
   processFrameResults_disabled,
   fun s c => ⟨by rw [captionThen_sceneContext], by rw [captionCatch_sceneContext]⟩⟩

theorem toggle_off_sync_and_async_guards_w :
    getMonitor (toggleMonitor widgetRunningEx MonitorKey.orientation).monitors
        MonitorKey.orientation =
      { enabled := false, status := "OFF", statusClass := "disabled" } ∧
    getMonitor (detectThen widgetRunningEx [boxEx]).monitors MonitorKey.composition =
      getMonitor widgetRunningEx.monitors MonitorKey.composition :=
  ⟨toggle_off_sync_and_async_guards.1 widgetRunningEx MonitorKey.orientation (by decide),
   (toggle_off_sync_and_async_guards.2.1 widgetRunningEx [boxEx]).2 (by decide)⟩

/-- Claim C3, counterexample: after `stopMonitoring`, a concrete detect
response that was still in flight mutates the stopped session's presence
MonitorState to `PRESENT/good` — the detect callback performs no liveness
check. -/
theorem stale_response_mutation_cex :
    (stopMonitoring widgetRunningEx).isMonitoring = false ∧
    (getMonitor (stopMonitoring widgetRunningEx).monitors MonitorKey.presence).status ≠
      "PRESENT" ∧
    (getMonitor (detectThen (stopMonitoring widgetRunningEx) [boxEx]).monitors
        MonitorKey.presence).status = "PRESENT" := by
  decide

/-- Claim C3, amended: only the landmark-detection callback
(`processFrameResults`) checks the liveness flag `_isMonitoring` before
mutating shared state; the two remote-call paths do not — with the session
stopped, a detect response still writes `PRESENT` to an enabled presence
monitor and a caption response still writes `UPDATED` to scene context. -/
theorem liveness_check_landmark_only :
    (∀ (s : WidgetState) (r : Option Frame) (env : Env), s.isMonitoring = false →
      processFrameResults s r env = s) ∧
    (∀ (s : WidgetState) (objs : List Box), s.isMonitoring = false →
      (getMonitor s.monitors MonitorKey.presence).enabled = true → objs ≠ [] →
      (getMonitor (detectThen s objs).monitors MonitorKey.presence).status = "PRESENT") ∧
    (∀ (s : WidgetState) (c : Option String), s.isMonitoring = false →
      (getMonitor (captionThen s c).monitors MonitorKey.sceneContext).status = "UPDATED") :=
  ⟨fun s r env hm => processFrameResults_stopped s r env hm,
   fun s objs _ hp hne => detectThen_presence_present s objs hp hne,
   fun s c _ => by rw [captionThen_sceneContext]⟩

theorem liveness_check_landmark_only_w :
    processFrameResults (stopMonitoring widgetRunningEx) none envNoFrameEx =
      stopMonitoring widgetRunningEx ∧
    (getMonitor (detectThen (stopMonitoring widgetRunningEx) [boxEx]).monitors
        MonitorKey.presence).status = "PRESENT" :=
  ⟨liveness_check_landmark_only.1 (stopMonitoring widgetRunningEx) none envNoFrameEx rfl,
   liveness_check_landmark_only.2.1 (stopMonitoring widgetRunningEx) [boxEx] rfl (by decide)
     (by decide)⟩

/-- Claim C4: a batched remote call is issued in a cycle only if
`now - lastMoonDreamCall > 2000` at that tick, and the timestamp is
updated to `now` at issuance; none of the four remote-completion callbacks
touches the timestamp; consequently across 5 consecutive cycles spaced
1500 ms apart the remote analyzers fire at most 4 times. -/
theorem throttle_gate_and_bound :
    (∀ (s : WidgetState) (e : Env), (runMonitoringCycle s e).2 ≠ [] →
      e.now - s.lastMoonDreamCall > 2000 ∧
      (runMonitoringCycle s e).1.lastMoonDreamCall = e.now) ∧
    (∀ (s : WidgetState) (objs : List Box) (c : Option String),
      (detectThen s objs).lastMoonDreamCall = s.lastMoonDreamCall ∧
      (detectCatch s).lastMoonDreamCall = s.lastMoonDreamCall ∧
      (captionThen s c).lastMoonDreamCall = s.lastMoonDreamCall ∧
      (captionCatch s).lastMoonDreamCall = s.lastMoonDreamCall) ∧
    (∀ (s : WidgetState) (t : Int) (e0 e1 e2 e3 e4 : Env),
      e0.now = t → e1.now = t + 1500 → e2.now = t + 3000 → e3.now = t + 4500 →
      e4.now = t + 6000 → (cycleRun s [e0, e1, e2, e3, e4]).2 ≤ 4) :=
  ⟨fun s e h => ⟨cycle_req_gate s e h, cycle_req_last s e h⟩,
   fun s objs c => ⟨detectThen_lastCall s objs, detectCatch_lastCall s,
     captionThen_lastCall s c, captionCatch_lastCall s⟩,
   cycleRun_five_bound⟩

theorem throttle_gate_and_bound_w :
    ((envEx 3000).now - widgetRunningEx.lastMoonDreamCall > 2000 ∧
      (runMonitoringCycle widgetRunningEx (envEx 3000)).1.lastMoonDreamCall =
        (envEx 3000).now) ∧
    (cycleRun widgetRunningEx
      [envEx 7000, envEx 8500, envEx 10000, envEx 11500, envEx 13000]).2 ≤ 4 :=
  ⟨throttle_gate_and_bound.1 widgetRunningEx (envEx 3000) (by decide),
   throttle_gate_and_bound.2.2 widgetRunningEx 7000 (envEx 7000) (envEx 8500)
     (envEx 10000) (envEx 11500) (envEx 13000) rfl rfl rfl rfl rfl⟩

/-- Claim C5: for every landmark history whose length after the push is at
most 5 (hence 1 to 5) and every index `i` of the incoming frame, the
smoothed point at `i` is the component-wise arithmetic mean (x, y, and z
with an absent z counting as 0) of `frame[i]` over all frames in the
history that define index `i`, falling back to the newest frame's raw
value at `i` when no history entry defines the index. -/
theorem smoothing_componentwise_mean (hist : List Frame) (nf : Frame) (i : ℕ)
    (hi : i < nf.length) (hlen : (pushHistory hist nf).length ≤ 5) :
    (smoothLandmarks hist nf).2.getD i none =
      (if ((pushHistory hist nf).filterMap (fun f => lmAt f i)).isEmpty then lmAt nf i
       else
         some
           { x := (((pushHistory hist nf).filterMap (fun f => lmAt f i)).map LMPoint.x).sum /
               ((pushHistory hist nf).filterMap (fun f => lmAt f i)).length,
             y := (((pushHistory hist nf).filterMap (fun f => lmAt f i)).map LMPoint.y).sum /
               ((pushHistory hist nf).filterMap (fun f => lmAt f i)).length,
             z := some ((((pushHistory hist nf).filterMap (fun f => lmAt f i)).map
                 zContrib).sum /
               ((pushHistory hist nf).filterMap (fun f => lmAt f i)).length) }) := by
  have hmap : (smoothLandmarks hist nf).2.getD i none = smoothedAt (pushHistory hist nf) nf i := by
    simp [smoothLandmarks, List.getD_eq_getElem?_getD, List.getElem?_map, List.getElem?_range,
      hi]
  rw [hmap]
  unfold smoothedAt
  rw [smoothAcc_spec]
  rcases hpts : (pushHistory hist nf).filterMap (fun f => lmAt f i) with _ | ⟨p, ts⟩
  · simp
  · simp

theorem smoothing_componentwise_mean_w :
    (smoothLandmarks histC5 nfC5).2.getD 0 none =
      some { x := 1 / 2, y := 1 / 2, z := some 1 } := by
  have h := smoothing_componentwise_mean histC5 nfC5 0 (by decide) (by decide)
  rw [h]
  simp [pushHistory, histC5, nfC5, lmAt, zContrib]

/-- Claim C6: for every detect response with at least one box and the
composition monitor enabled, the analyzer builds its issue list in the
fixed order size, horizontal, vertical with the stated thresholds (the
sequentially built list equals the three concatenated threshold
segments), writes `GOOD/good` when no issue fires and otherwise the
space-joined tags with class `bad`; in particular the box of width 0.6
centered at (0.5, 0.5) yields exactly `TOO CLOSE` with no position
tags. -/
theorem composition_order_and_thresholds (face : Box) (s : WidgetState)
    (objs rest : List Box) (hobjs : objs = face :: rest)
    (hen : (getMonitor s.monitors MonitorKey.composition).enabled = true) :
    compositionIssues face = compositionIssuesSpec face ∧
    getMonitor (detectThen s objs).monitors MonitorKey.composition =
      { getMonitor s.monitors MonitorKey.composition with
          status := (compositionStatus face).1,
          statusClass := (compositionStatus face).2 } ∧
    (compositionIssues face = [] →
      compositionStatus face = ("GOOD", "good")) ∧
    (compositionIssues face ≠ [] →
      compositionStatus face =
        (String.intercalate " " (compositionIssues face), "bad")) ∧
    compositionIssues boxEx = ["TOO CLOSE"] ∧
    compositionStatus boxEx = ("TOO CLOSE", "bad") := by
  have hcex : compositionIssues boxEx = ["TOO CLOSE"] := by
    norm_num [compositionIssues, boxEx]
  have hst : compositionStatus boxEx = ("TOO CLOSE", "bad") := by
    simp only [compositionStatus, hcex]
    rfl
  refine ⟨compositionIssues_eq_spec face, ?_, ?_, ?_, hcex, hst⟩
  · subst hobjs
    exact detectThen_composition s face rest hen
  · intro hnil
    simp [compositionStatus, hnil]
  · intro hne
    unfold compositionStatus
    rw [if_neg (by simpa [List.length_eq_zero] using hne)]

theorem composition_order_and_thresholds_w :
    getMonitor (detectThen widgetCompEx [boxEx]).monitors MonitorKey.composition =
      { getMonitor widgetCompEx.monitors MonitorKey.composition with
          status := (compositionStatus boxEx).1,
          statusClass := (compositionStatus boxEx).2 } ∧
    compositionIssues boxEx = ["TOO CLOSE"] :=
  ⟨(composition_order_and_thresholds boxEx widgetCompEx [boxEx] [] rfl (by decide)).2.1,
   (composition_order_and_thresholds boxEx widgetCompEx [boxEx] [] rfl (by decide)).2.2.2.2.1⟩

/-- Claim C7: whenever the raw talking measurement (lip distance greater
than 0.018) differs from the stored `TalkingHysteresis.isTalking` flag but
at most 150 ms have elapsed since the last stored flip, the stored state
is left entirely unchanged, yet the displayed status of that same call is
computed from the instantaneous raw measurement (`TALKING/good` if raw,
else `SILENT/warning`), not from the stored flag. -/
theorem talking_debounce_raw_display (up low : LMPoint) (ts : TalkingState) (now : Int)
    (hflip : decide (|up.y - low.y| > (0.018 : ℚ)) ≠ ts.isTalking)
    (hrecent : now - ts.lastChange ≤ 150) :
    (analyzeTalkingCore up low ts now).1 = ts ∧
    (analyzeTalkingCore up low ts now).2 =
      (if |up.y - low.y| > (0.018 : ℚ) then ("TALKING", "good")
       else ("SILENT", "warning")) := by
  simp only [analyzeTalkingCore]
  by_cases hraw : |up.y - low.y| > (0.018 : ℚ)
  · rw [decide_eq_true hraw] at hflip
    have hts : ts.isTalking = false := by simpa using Ne.symm hflip
    simp [decide_eq_true hraw, hts, hraw, show ¬ (now - ts.lastChange > 150) by omega]
  · rw [decide_eq_false hraw] at hflip
    have hts : ts.isTalking = true := by simpa using Ne.symm hflip
    simp [decide_eq_false hraw, hts, hraw, show ¬ (now - ts.lastChange > 150) by omega]

theorem talking_debounce_raw_display_w :
    (analyzeTalkingCore { x := 0, y := 0, z := none } { x := 0, y := 0, z := none }
        { isTalking := true, lastChange := 1000 } 1100).1 =
      { isTalking := true, lastChange := 1000 } ∧
    (analyzeTalkingCore { x := 0, y := 0, z := none } { x := 0, y := 0, z := none }
        { isTalking := true, lastChange := 1000 } 1100).2 =
      (if |(0 : ℚ) - 0| > (0.018 : ℚ) then ("TALKING", "good")
       else ("SILENT", "warning")) :=
  talking_debounce_raw_display { x := 0, y := 0, z := none } { x := 0, y := 0, z := none }
    { isTalking := true, lastChange := 1000 } 1100
    (by rw [decide_eq_false (by simp; norm_num)]; simp) (by norm_num)

/-- Claim C8: for every nonempty pixel buffer, with `L` the average of
`0.299R + 0.587G + 0.114B` over all pixels, the lighting analyzer
classifies `L < 50` as `DARK/bad`, `[50, 90)` as `DIM/warning`,
`[90, 180]` as `GOOD/good`, `(180, 220]` as `BRIGHT/warning` and
`L > 220` as `OVEREXPOSED/bad`; in particular 49 is DARK, 50 DIM, 90 and
180 GOOD, 181 and 220 BRIGHT, and 221 OVEREXPOSED. -/
theorem lighting_thresholds :
    (∀ pixels : List Pixel, pixels ≠ [] →
      (avgBrightness pixels < 50 →
        classifyBrightness (avgBrightness pixels) = ("DARK", "bad")) ∧
      (50 ≤ avgBrightness pixels ∧ avgBrightness pixels < 90 →
        classifyBrightness (avgBrightness pixels) = ("DIM", "warning")) ∧
      (90 ≤ avgBrightness pixels ∧ avgBrightness pixels ≤ 180 →
        classifyBrightness (avgBrightness pixels) = ("GOOD", "good")) ∧
      (180 < avgBrightness pixels ∧ avgBrightness pixels ≤ 220 →
        classifyBrightness (avgBrightness pixels) = ("BRIGHT", "warning")) ∧
      (220 < avgBrightness pixels →
        classifyBrightness (avgBrightness pixels) = ("OVEREXPOSED", "bad"))) ∧
    classifyBrightness 49 = ("DARK", "bad") ∧
    classifyBrightness 50 = ("DIM", "warning") ∧
    classifyBrightness 90 = ("GOOD", "good") ∧
    classifyBrightness 180 = ("GOOD", "good") ∧
    classifyBrightness 181 = ("BRIGHT", "warning") ∧
    classifyBrightness 220 = ("BRIGHT", "warning") ∧
    classifyBrightness 221 = ("OVEREXPOSED", "bad") := by
  have hcls : ∀ l : ℚ,
      (l < 50 → classifyBrightness l = ("DARK", "bad")) ∧
      (50 ≤ l ∧ l < 90 → classifyBrightness l = ("DIM", "warning")) ∧
      (90 ≤ l ∧ l ≤ 180 → classifyBrightness l = ("GOOD", "good")) ∧
      (180 < l ∧ l ≤ 220 → classifyBrightness l = ("BRIGHT", "warning")) ∧
      (220 < l → classifyBrightness l = ("OVEREXPOSED", "bad")) := by
    intro l
    refine ⟨fun h => ?_, fun h => ?_, fun h => ?_, fun h => ?_, fun h => ?_⟩ <;>
      simp only [classifyBrightness]
    · rw [if_pos h]
    · rw [if_neg (by linarith), if_pos h.2]
    · rw [if_neg (by linarith), if_neg (by linarith), if_neg (by linarith),
        if_neg (by linarith)]
    · rw [if_neg (by linarith), if_neg (by linarith), if_neg (by linarith),
        if_pos h.1]
    · rw [if_neg (by linarith), if_neg (by linarith), if_pos h]
  exact ⟨fun pixels _ => hcls (avgBrightness pixels),
    (hcls 49).1 (by norm_num), (hcls 50).2.1 (by norm_num),
    (hcls 90).2.2.1 (by norm_num), (hcls 180).2.2.1 (by norm_num),
    (hcls 181).2.2.2.1 (by norm_num), (hcls 220).2.2.2.1 (by norm_num),
    (hcls 221).2.2.2.2 (by norm_num)⟩

theorem lighting_thresholds_w :
    classifyBrightness (avgBrightness [{ r := 49, g := 49, b := 49 }]) = ("DARK", "bad") :=
  (lighting_thresholds.1 [{ r := 49, g := 49, b := 49 }] (by simp)).1
    (by norm_num [avgBrightness, luminance])

/-- Claim C9: for every computed Laplacian variance `v` the focus analyzer
classifies `v > 12` as `SHARP/good`, `6 < v ≤ 12` as `OK/warning` and
`v ≤ 6` as `BLURRY/bad`; in particular 12 yields OK, 6 yields BLURRY and
13 yields SHARP. -/
theorem focus_thresholds :
    (∀ v : ℚ,
      (v > 12 → classifyFocus v = ("SHARP", "good")) ∧
      (6 < v ∧ v ≤ 12 → classifyFocus v = ("OK", "warning")) ∧
      (v ≤ 6 → classifyFocus v = ("BLURRY", "bad"))) ∧
    classifyFocus 12 = ("OK", "warning") ∧
    classifyFocus 6 = ("BLURRY", "bad") ∧
    classifyFocus 13 = ("SHARP", "good") := by
  constructor
  · intro v
    refine ⟨fun h => ?_, fun h => ?_, fun h => ?_⟩ <;> simp only [classifyFocus]
    · rw [if_pos h]
    · rw [if_neg (by linarith), if_pos h.1]
    · rw [if_neg (by linarith), if_neg (by linarith)]
  · refine ⟨?_, ?_, ?_⟩ <;> norm_num [classifyFocus]

theorem focus_thresholds_w :
    classifyFocus 7 = ("OK", "warning") :=
  (focus_thresholds.1 7).2.1 (by norm_num)

/-- Claim C10: when the throttle window has elapsed at a cycle tick but no
current frame is available, the remote-analysis routine returns at once
with no request dispatched and the widget state untouched, yet the cycle
still advances the throttle timestamp to `now`, so every cycle within the
next full throttle window issues nothing. -/
theorem throttle_skip_no_frame (s : WidgetState) (e : Env)
    (hm : s.isMonitoring = true) (hf : e.frame = false)
    (hg : e.now - s.lastMoonDreamCall > 2000) :
    runMoonDreamAnalysis s false = (s, []) ∧
    (runMonitoringCycle s e).2 = [] ∧
    (runMonitoringCycle s e).1.lastMoonDreamCall = e.now ∧
    ∀ e' : Env, e'.now - e.now ≤ 2000 →
      (runMonitoringCycle (runMonitoringCycle s e).1 e').2 = [] := by
  refine ⟨by simp [runMoonDreamAnalysis], ?_, cycle_gate_last s e hm hg, ?_⟩
  · unfold runMonitoringCycle
    rw [if_neg (by simp [hm])]
    have hl : (if (getMonitor s.monitors MonitorKey.lighting).enabled = true
        then analyzeLightingStep s e else s).lastMoonDreamCall = s.lastMoonDreamCall := by
      split_ifs <;> simp [analyzeLightingStep_lastCall]
    rw [if_pos (by rw [hl]; exact hg), hf]
    simp [runMoonDreamAnalysis]
  · intro e' hgap
    by_contra hne
    have g := cycle_req_gate _ _ hne
    rw [cycle_gate_last s e hm hg] at g
    omega

theorem throttle_skip_no_frame_w :
    runMoonDreamAnalysis widgetRunningEx false = (widgetRunningEx, []) ∧
    (runMonitoringCycle widgetRunningEx envNoFrameEx).2 = [] ∧
    (runMonitoringCycle widgetRunningEx envNoFrameEx).1.lastMoonDreamCall =
      envNoFrameEx.now ∧
    (runMonitoringCycle (runMonitoringCycle widgetRunningEx envNoFrameEx).1
      (envEx 6000)).2 = [] := by
  have h := throttle_skip_no_frame widgetRunningEx envNoFrameEx rfl rfl (by decide)
  exact ⟨h.1, h.2.1, h.2.2.1, h.2.2.2 (envEx 6000) (by decide)⟩
